import Mathlib

/-!
Verification of the PJLink projector-control client (src/index.ts).

The development shallowly embeds the command-exchange core of the library:
the `_killSocket` graceful-close helper, the `_sendCmd` retry state machine
(connection lifecycle, authentication handshake, request framing, response
classification), and the `setInputByDirectNumber` convenience wrapper whose
error matching depends on the exact carried-error strings of the core.

Wire buffers are modelled as `String` (the device protocol is ASCII), and
`Buffer.slice` is modelled by list-level helpers below.  The MD5 digest of
the Node `crypto` library is an external collaborator and is abstracted as
an arbitrary function `md5hex : String → String` wherever it appears; every
theorem that mentions it is quantified over it.

Asynchronous behaviour is embedded in two complementary ways:
* `stepAttempt` is the event-level view of one Attempt: a state transformer
  over the listener/timer events of one socket, faithful to the data
  listener (lines 118-171), the error listener (lines 172-174) and the
  2000 ms timer callback (lines 176-207).
* `sendCmdAux`/`sendCmd` are the per-call view: each Attempt is summarised
  by the event that concludes it (a non-greeting data chunk, or the timer
  firing first), supplied by an environment `env : Nat → AttemptEvent`
  indexed by the retry counter of the Attempt.  The outcome record is
  instrumented with the retry value and the PROTOCOL_VERSION string of
  every invocation that actually creates a socket, connects, and starts
  the per-Attempt timer.
-/

namespace PJLink

/-- JS `buf.slice(a, b).toString()` for `0 ≤ a ≤ b` on an ASCII buffer. -/
def bufSlice (s : String) (a b : Nat) : String :=
  String.mk ((s.data.drop a).take (b - a))

/-- JS `buf.slice(a).toString()` on an ASCII buffer. -/
def bufSliceFrom (s : String) (a : Nat) : String :=
  String.mk (s.data.drop a)

/-- JS `buf.slice(a, -1).toString()` on an ASCII buffer. -/
def bufSliceDropLast (s : String) (a : Nat) : String :=
  String.mk ((s.data.drop a).dropLast)

/-- JS `String.prototype.toUpperCase()`; the command tokens used here are ASCII,
where the per-character uppercase maps agree. -/
def toUpperCase (s : String) : String :=
  String.mk (s.data.map Char.toUpper)

/-- Line 5: `const maxRetries = 5`. -/
def maxRetries : Nat := 5

/-- Line 17: `_protocolVersion2Commands = ["SVOL", "IRES", "FREZ"]`. -/
def protocolVersion2Commands : List String := ["SVOL", "IRES", "FREZ"]

/-- Lines 105-106: `PROTOCOL_VERSION` is `"%2"` when the uppercased command is in
`_protocolVersion2Commands`, else `"%1"`; recomputed from `cmd` alone at the start
of every `_sendCmd` invocation. -/
def protocolVersion (cmd : String) : String :=
  if protocolVersion2Commands.contains (toUpperCase cmd) then "%2" else "%1"

/-- The `arg` parameter of `_sendCmd`: the query marker `'?'` or a non-negative
integer (every in-repo caller passes a natural number). -/
inductive Arg
  | query
  | num (n : Nat)
deriving DecidableEq, Repr

/-- Line 115: `arg == '?' ? '?' : arg.toString()`. -/
def argToString : Arg → String
  | .query => "?"
  | .num n => toString n

/-- Lines 113-114: `query = (arg == '?')`. -/
def isQuery : Arg → Bool
  | .query => true
  | .num _ => false

/-- Outcome of `_killSocket` (lines 67-85): either the socket's close event fires
within the 200 ms grace window and the promise resolves (`closed`), or at 200 ms
the socket is force-destroyed via `socket.destroy()` and the promise rejects with
`killSocketError` (`destroyed`). -/
inductive KillResult
  | closed
  | destroyed
deriving DecidableEq, Repr

/-- Line 80: the rejection value of a failed `_killSocket`. -/
def killSocketError : String := "Projector failed to close socket"

/-- `_killSocket`, abstracted over whether the close event fires inside the
grace window. -/
def killSocket (closedInGrace : Bool) : KillResult :=
  if closedInGrace then .closed else .destroyed

/-- How one Attempt concludes, as seen by the enclosing `_sendCmd` promise:
`resolve p` is `res()` (with `p = none`) or `res(string)` (with `p = some _`);
`retryWith e` is the recursive `_sendCmd(cmd, arg, retry + 1, e)` whose result is
chained into `res`/`rej`; `reject e` is `rej(e)` with no further Attempt. -/
inductive AttemptResult
  | resolve (payload : Option String)
  | retryWith (e : String)
  | reject (e : String)
deriving DecidableEq, Repr

/-- Lines 137-170: a non-greeting chunk `buf` sets `ending`, runs `_killSocket`,
and on successful close classifies `buf`: prefix check `buf.slice(0,7)` against
`PROTOCOL_VERSION + cmd + '='`; for a set command `buf.slice(7,9) == 'OK'` resolves,
any other tail retries with `'Projector returned error: ' + buf.slice(7)`; for a
query `buf.slice(7)` is the payload; a prefix mismatch retries with
`'Unexpected answer from projector'`.  If `_killSocket` rejects, the `.catch(rej)`
on line 169 rejects the whole call with its error. -/
def responseConcluded (PV cmd : String) (query : Bool) (buf : String)
    (closedInGrace : Bool) : AttemptResult :=
  match killSocket closedInGrace with
  | .destroyed => .reject killSocketError
  | .closed =>
    if bufSlice buf 0 7 = PV ++ cmd ++ "=" then
      if !query then
        if bufSlice buf 7 9 = "OK" then .resolve none
        else .retryWith ("Projector returned error: " ++ bufSliceFrom buf 7)
      else .resolve (some (bufSliceFrom buf 7))
    else .retryWith "Unexpected answer from projector"

/-- Lines 176-207: the 2000 ms timer fires with no response chunk seen; the socket
is killed, then the call retries with `'Failed command to projector'` on a clean
close, or with the line 196 diagnostic string (note the hard-coded `"%1"`) when
`_killSocket` itself rejects. -/
def timeoutConcluded (cmd argString : String) (closedInGrace : Bool) : AttemptResult :=
  match killSocket closedInGrace with
  | .closed => .retryWith "Failed command to projector"
  | .destroyed =>
      .retryWith ("Failed command to projector, failed to close socket, command: %1"
        ++ cmd ++ " " ++ argString)

/-- The event that concludes one Attempt: either a non-greeting data chunk `buf`
arrives before the 2000 ms timer, or the timer fires first.  `closedInGrace`
records whether the `_killSocket` run by that branch confirms within 200 ms. -/
inductive AttemptEvent
  | response (buf : String) (closedInGrace : Bool)
  | timeout (closedInGrace : Bool)

/-- The conclusion of one Attempt given its concluding event. -/
def attemptOutcome (PV cmd argString : String) (query : Bool) :
    AttemptEvent → AttemptResult
  | .response buf closedInGrace => responseConcluded PV cmd query buf closedInGrace
  | .timeout closedInGrace => timeoutConcluded cmd argString closedInGrace

/-- What the data listener does with one inbound chunk (lines 118-137): an auth
greeting writes the digest-prefixed request line, a no-auth greeting writes the
plain request line, anything else is treated as the command response. -/
inductive DataAction
  | writeAuth (line : String)
  | writePlain (line : String)
  | response
deriving DecidableEq, Repr

/-- Lines 118-137.  `md5hex` abstracts
`crypto.createHash('md5').update(x).digest('hex')` of the Node standard library.
The seed passed to the hash is `buf.slice(9, -1)`: everything after the 9-byte
auth greeting marker, with the final CR dropped. -/
def handleData (md5hex : String → String) (password PV cmd argString buf : String) :
    DataAction :=
  if bufSlice buf 0 9 = "PJLINK 1 " then
    .writeAuth (md5hex (bufSliceDropLast buf 9 ++ password)
      ++ PV ++ cmd ++ " " ++ argString ++ "\r")
  else if bufSlice buf 0 8 = "PJLINK 0" then
    .writePlain (PV ++ cmd ++ " " ++ argString ++ "\r")
  else .response

/-- Settlement of the promise returned by one `_sendCmd` call: `resolved none`
is `res()`, `resolved (some s)` is `res(s)`, `rejected e` is `rej(e)` (where
`e = none` models `rej(err)` with `err` still `undefined`). -/
inductive CmdResult
  | resolved (payload : Option String)
  | rejected (e : Option String)
deriving DecidableEq, Repr

/-- Result of a `_sendCmd` invocation chain, instrumented with one entry in
`retries` (the retry counter) and one in `tags` (the `PROTOCOL_VERSION` string
computed on lines 105-106) per invocation that actually creates a socket,
connects, writes, and starts the per-Attempt timer; the terminal
`retry > maxRetries` branch (lines 109-112) contributes no entry. -/
structure SendOutcome where
  result : CmdResult
  retries : List Nat
  tags : List String
deriving DecidableEq, Repr

/-- Lines 104-209, one equation per `_sendCmd` invocation.  `fuel` only bounds the
structural recursion: `sendCmd` passes `maxRetries + 1`, which is enough that the
`fuel = 0` branch is never reached, because after `maxRetries + 1` recursive steps
the guard `retry > maxRetries` always fires first (and the branch returns the same
terminal record as the guard in any case). -/
def sendCmdAux (env : Nat → AttemptEvent) (cmd argString : String) (query : Bool) :
    Nat → Nat → Option String → SendOutcome
  | fuel, retry, err =>
    let PV := protocolVersion cmd
    if retry > maxRetries then { result := .rejected err, retries := [], tags := [] }
    else
      match fuel with
      | 0 => { result := .rejected err, retries := [], tags := [] }
      | fuel + 1 =>
        match attemptOutcome PV cmd argString query (env retry) with
        | .resolve p => { result := .resolved p, retries := [retry], tags := [PV] }
        | .reject e => { result := .rejected (some e), retries := [retry], tags := [PV] }
        | .retryWith e =>
          let rest := sendCmdAux env cmd argString query fuel (retry + 1) (some e)
          { result := rest.result, retries := retry :: rest.retries,
            tags := PV :: rest.tags }

/-- Line 107: `if (!retry) retry = 0` — an absent (`undefined`) retry argument
normalises to 0 (and `!0` is also truthy in JS, mapping 0 to 0). -/
def normRetry : Option Nat → Nat
  | none => 0
  | some n => n

/-- `_sendCmd(cmd, arg, retry?, err?)` under the environment `env`. -/
def sendCmd (env : Nat → AttemptEvent) (cmd : String) (arg : Arg)
    (retry : Option Nat) (err : Option String) : SendOutcome :=
  sendCmdAux env cmd (argToString arg) (isQuery arg) (maxRetries + 1)
    (normRetry retry) err

/-- Observable state of one Attempt between events: the `ending` flag (line 116),
the request lines written so far, the settlement of the Attempt (`none` while
pending), and the `console.error` log. -/
structure AttemptState where
  ending : Bool
  writes : List String
  resolution : Option AttemptResult
  errorLog : List String
deriving DecidableEq, Repr

/-- The events a live Attempt can receive: an inbound data chunk, a socket
`error` event, or the 2000 ms timer firing. -/
inductive SocketEvent
  | data (buf : String) (closedInGrace : Bool)
  | socketError (msg : String)
  | timerFire (closedInGrace : Bool)

/-- Event-level transition of one Attempt.  A data chunk follows lines 118-170
(greetings write a line and leave the Attempt pending; a response chunk sets
`ending` and settles via `responseConcluded`).  A socket `error` event follows
lines 172-174: the message is logged via `console.error` and nothing else
changes.  The timer callback follows lines 176-207, guarded by `if (!ending)`
on line 177. -/
def stepAttempt (md5hex : String → String) (password PV cmd argString : String)
    (query : Bool) (st : AttemptState) : SocketEvent → AttemptState
  | .data buf closedInGrace =>
    match handleData md5hex password PV cmd argString buf with
    | .writeAuth line => { st with writes := st.writes ++ [line] }
    | .writePlain line => { st with writes := st.writes ++ [line] }
    | .response =>
      { st with ending := true,
                resolution := some (responseConcluded PV cmd query buf closedInGrace) }
  | .socketError msg => { st with errorLog := st.errorLog ++ [msg] }
  | .timerFire closedInGrace =>
    if st.ending then st
    else { st with resolution := some (timeoutConcluded cmd argString closedInGrace) }

/-- The catch handler of `setInputByDirectNumber` (lines 446-450): the carried
error is compared against the exact string `'Projector returned error: ERR2\r'`
(terminator included) and, on a match, replaced by the friendly message. -/
def inputRejectionMap (input : Nat) (e : Option String) : Option String :=
  match e with
  | some err =>
    if err = "Projector returned error: ERR2\r" then
      some ("Input \"" ++ toString input ++ "\" does not exist")
    else some err
  | none => none

/-- Lines 440-452: `setInputByDirectNumber(input)` delegates to
`_sendCmd('INPT', input)` and post-processes a rejection through the catch
handler above. -/
def setInputByDirectNumber (env : Nat → AttemptEvent) (input : Nat) : CmdResult :=
  match (sendCmd env "INPT" (.num input) none none).result with
  | .resolved _ => .resolved none
  | .rejected e => .rejected (inputRejectionMap input e)

/-- A device that answers every Attempt with a POWR ERR2 rejection and always
closes cleanly. -/
def envPowrErr2 : Nat → AttemptEvent :=
  fun _ => .response "%1POWR=ERR2\r" true

/-- A device that acknowledges POWR but whose socket never confirms close inside
the 200 ms grace window. -/
def envPowrOkCloseFail : Nat → AttemptEvent :=
  fun _ => .response "%1POWR=OK\r" false

/-- A device that answers every LAMP query with `"%1LAMP=1234 1\r"`. -/
def envLampQuery : Nat → AttemptEvent :=
  fun _ => .response "%1LAMP=1234 1\r" true

/-- A device that answers every INPT set with an ERR2 rejection. -/
def envInptErr2 : Nat → AttemptEvent :=
  fun _ => .response "%1INPT=ERR2\r" true

/-- A device that rejects the first POWR Attempt with ERR2 and acknowledges every
later one. -/
def envPowrErr2ThenOk : Nat → AttemptEvent :=
  fun r => if r = 0 then .response "%1POWR=ERR2\r" true
           else .response "%1POWR=OK\r" true

lemma mk_data (s : String) : String.mk s.data = s := rfl

lemma contains_mem (l : List String) (a : String) : l.contains a = true ↔ a ∈ l := by
  simp [List.elem_iff, List.contains]

lemma protocolVersion_length (cmd : String) : (protocolVersion cmd).data.length = 2 := by
  unfold protocolVersion
  split <;> rfl

lemma bufSlice_zero_append (p t : String) (n : Nat) (h : p.data.length = n) :
    bufSlice (p ++ t) 0 n = p := by
  subst h
  simp [bufSlice, String.data_append, List.take_left, mk_data]

lemma bufSliceFrom_append (p t : String) (n : Nat) (h : p.data.length = n) :
    bufSliceFrom (p ++ t) n = t := by
  subst h
  simp [bufSliceFrom, String.data_append, List.drop_left, mk_data]

lemma bufSlice_append_from (p t : String) (n b : Nat) (h : p.data.length = n) :
    bufSlice (p ++ t) n b = bufSlice t 0 (b - n) := by
  subst h
  simp [bufSlice, String.data_append, List.drop_left]

lemma bufSliceDropLast_append (p t : String) (n : Nat) (h : p.data.length = n) :
    bufSliceDropLast (p ++ (t ++ "\r")) n = t := by
  subst h
  have hcr : ("\r" : String).data = ['\r'] := rfl
  simp [bufSliceDropLast, String.data_append, List.drop_left, hcr,
    List.dropLast_concat, mk_data]

/-- The response classifier on a well-formed wire response: a 7-byte matched head
followed by an arbitrary tail, with a clean close. -/
lemma responseConcluded_append (cmd tail : String) (query : Bool)
    (h : cmd.data.length = 4) :
    responseConcluded (protocolVersion cmd) cmd query
        (protocolVersion cmd ++ cmd ++ "=" ++ tail) true
      = if query then AttemptResult.resolve (some tail)
        else if bufSlice tail 0 2 = "OK" then AttemptResult.resolve none
        else AttemptResult.retryWith ("Projector returned error: " ++ tail) := by
  have hlen : (protocolVersion cmd ++ cmd ++ "=").data.length = 7 := by
    simp only [String.data_append, List.length_append, protocolVersion_length cmd, h]
    rfl
  have h0 : bufSlice (protocolVersion cmd ++ cmd ++ "=" ++ tail) 0 7
      = protocolVersion cmd ++ cmd ++ "=" :=
    bufSlice_zero_append _ _ _ hlen
  have h7 : bufSliceFrom (protocolVersion cmd ++ cmd ++ "=" ++ tail) 7 = tail :=
    bufSliceFrom_append _ _ _ hlen
  have h79 : bufSlice (protocolVersion cmd ++ cmd ++ "=" ++ tail) 7 9 = bufSlice tail 0 2 :=
    bufSlice_append_from _ _ _ _ hlen
  cases query <;> simp [responseConcluded, killSocket, h0, h7, h79]

lemma sendCmdAux_terminal (env : Nat → AttemptEvent) (cmd argString : String)
    (query : Bool) (fuel retry : Nat) (err : Option String) (h : maxRetries < retry) :
    sendCmdAux env cmd argString query fuel retry err
      = { result := .rejected err, retries := [], tags := [] } := by
  cases fuel <;> simp [sendCmdAux, h]

lemma sendCmdAux_resolve (env : Nat → AttemptEvent) (cmd argString : String)
    (query : Bool) (fuel retry : Nat) (err : Option String) (p : Option String)
    (h : ¬ maxRetries < retry)
    (hout : attemptOutcome (protocolVersion cmd) cmd argString query (env retry)
      = .resolve p) :
    sendCmdAux env cmd argString query (fuel + 1) retry err
      = { result := .resolved p, retries := [retry], tags := [protocolVersion cmd] } := by
  simp [sendCmdAux, h, hout]

lemma sendCmdAux_rejectStep (env : Nat → AttemptEvent) (cmd argString : String)
    (query : Bool) (fuel retry : Nat) (err : Option String) (e : String)
    (h : ¬ maxRetries < retry)
    (hout : attemptOutcome (protocolVersion cmd) cmd argString query (env retry)
      = .reject e) :
    sendCmdAux env cmd argString query (fuel + 1) retry err
      = { result := .rejected (some e), retries := [retry],
          tags := [protocolVersion cmd] } := by
  simp [sendCmdAux, h, hout]

lemma sendCmdAux_retryStep (env : Nat → AttemptEvent) (cmd argString : String)
    (query : Bool) (fuel retry : Nat) (err : Option String) (e : String)
    (h : ¬ maxRetries < retry)
    (hout : attemptOutcome (protocolVersion cmd) cmd argString query (env retry)
      = .retryWith e) :
    sendCmdAux env cmd argString query (fuel + 1) retry err
      = { result := (sendCmdAux env cmd argString query fuel (retry + 1) (some e)).result,
          retries := retry :: (sendCmdAux env cmd argString query fuel (retry + 1) (some e)).retries,
          tags := protocolVersion cmd
            :: (sendCmdAux env cmd argString query fuel (retry + 1) (some e)).tags } := by
  simp [sendCmdAux, h, hout]

/-- Shape of the instrumented retry trace: the retry counters of the Attempts of
one call are consecutive starting from the initial value, all of them at most
`maxRetries`, and there are at most `fuel` of them. -/
lemma sendCmdAux_retries_spec (env : Nat → AttemptEvent) (cmd argString : String)
    (query : Bool) :
    ∀ (fuel retry : Nat) (err : Option String),
      (sendCmdAux env cmd argString query fuel retry err).retries
          = List.range' retry (sendCmdAux env cmd argString query fuel retry err).retries.length
        ∧ (sendCmdAux env cmd argString query fuel retry err).retries.all
            (fun r => decide (r ≤ maxRetries)) = true
        ∧ (sendCmdAux env cmd argString query fuel retry err).retries.length ≤ fuel := by
  intro fuel
  induction fuel with
  | zero =>
    intro retry err
    by_cases h : maxRetries < retry <;> simp [sendCmdAux, h]
  | succ fuel ih =>
    intro retry err
    by_cases h : maxRetries < retry
    · simp [sendCmdAux_terminal env cmd argString query _ retry err h]
    · rcases hout : attemptOutcome (protocolVersion cmd) cmd argString query (env retry) with
        p | e | e
      · simp [sendCmdAux_resolve env cmd argString query fuel retry err p h hout]
        omega
      · rw [sendCmdAux_retryStep env cmd argString query fuel retry err e h hout]
        rcases ih (retry + 1) (some e) with ⟨h1, h2, h3⟩
        refine ⟨?_, ?_, ?_⟩
        · simp only [List.length_cons]
          rw [List.range'_succ]
          exact congrArg (retry :: ·) h1
        · simp only [List.all_cons, h2, Bool.and_true]
          simp
          omega
        · simp only [List.length_cons]
          omega
      · simp [sendCmdAux_rejectStep env cmd argString query fuel retry err e h hout]
        omega

/-- Every `PROTOCOL_VERSION` recorded across the Attempts of one call is the one
computed from `cmd` alone. -/
lemma sendCmdAux_tags_replicate (env : Nat → AttemptEvent) (cmd argString : String)
    (query : Bool) :
    ∀ (fuel retry : Nat) (err : Option String), ∃ k,
      (sendCmdAux env cmd argString query fuel retry err).tags
        = List.replicate k (protocolVersion cmd) := by
  intro fuel
  induction fuel with
  | zero =>
    intro retry err
    by_cases h : maxRetries < retry <;> exact ⟨0, by simp [sendCmdAux, h]⟩
  | succ fuel ih =>
    intro retry err
    by_cases h : maxRetries < retry
    · exact ⟨0, by simp [sendCmdAux_terminal env cmd argString query _ retry err h]⟩
    · rcases hout : attemptOutcome (protocolVersion cmd) cmd argString query (env retry) with
        p | e | e
      · exact ⟨1, by simp [sendCmdAux_resolve env cmd argString query fuel retry err p h hout]⟩
      · rcases ih (retry + 1) (some e) with ⟨k, hk⟩
        refine ⟨k + 1, ?_⟩
        rw [sendCmdAux_retryStep env cmd argString query fuel retry err e h hout]
        simp [hk, List.replicate_succ]
      · exact ⟨1, by simp [sendCmdAux_rejectStep env cmd argString query fuel retry err e h hout]⟩

/-- C1, counterexample: a device acknowledges POWR but the socket misses the
200 ms close-confirmation window.  The claim says this close failure starts a new
Attempt with `retry + 1`; in the code the `.catch(rej)` on line 169 rejects the
whole logical command at once with the `_killSocket` error, after exactly one
Attempt (retry trace `[0]`), so the close failure does not contribute to the
retry count. -/
theorem C1_close_failure_counterexample :
    (sendCmd envPowrOkCloseFail "POWR" (Arg.num 1) none none).result
        = CmdResult.rejected (some "Projector failed to close socket")
      ∧ (sendCmd envPowrOkCloseFail "POWR" (Arg.num 1) none none).retries = [0] := by
  decide

/-- C1 (amended): a Connection that misses the 200 ms grace window is
force-destroyed (`killSocket false = destroyed`); after a received response this
close failure immediately rejects the logical command with
`killSocketError` after that single Attempt, starting no new Attempt; only in
the timeout branch does a close failure start a new Attempt with `retry + 1`
carrying the distinguishing error naming the command and argument. -/
theorem C1_close_failure (env : Nat → AttemptEvent) (cmd : String) (arg : Arg)
    (retry : Nat) (err : Option String) (buf : String)
    (hretry : retry ≤ maxRetries)
    (henv : env retry = AttemptEvent.response buf false) :
    killSocket false = KillResult.destroyed
    ∧ responseConcluded (protocolVersion cmd) cmd (isQuery arg) buf false
        = AttemptResult.reject killSocketError
    ∧ sendCmd env cmd arg (some retry) err
        = { result := CmdResult.rejected (some killSocketError), retries := [retry],
            tags := [protocolVersion cmd] }
    ∧ timeoutConcluded cmd (argToString arg) false
        = AttemptResult.retryWith
            ("Failed command to projector, failed to close socket, command: %1"
              ++ cmd ++ " " ++ argToString arg) := by
  have hresp : responseConcluded (protocolVersion cmd) cmd (isQuery arg) buf false
      = AttemptResult.reject killSocketError := by
    simp [responseConcluded, killSocket]
  refine ⟨rfl, hresp, ?_, by simp [timeoutConcluded, killSocket]⟩
  have hnot : ¬ maxRetries < retry := by omega
  have hout : attemptOutcome (protocolVersion cmd) cmd (argToString arg) (isQuery arg)
      (env retry) = AttemptResult.reject killSocketError := by
    rw [henv]; exact hresp
  exact sendCmdAux_rejectStep env cmd (argToString arg) (isQuery arg) maxRetries retry
    err killSocketError hnot hout

/-- C1, witness for the amended theorem at the concrete close-failure device. -/
theorem C1_close_failure_witness :
    ((0 : Nat) ≤ maxRetries
      ∧ envPowrOkCloseFail 0 = AttemptEvent.response "%1POWR=OK\r" false)
    ∧ (killSocket false = KillResult.destroyed
      ∧ responseConcluded (protocolVersion "POWR") "POWR" (isQuery (Arg.num 1))
          "%1POWR=OK\r" false = AttemptResult.reject killSocketError
      ∧ sendCmd envPowrOkCloseFail "POWR" (Arg.num 1) (some 0) none
          = { result := CmdResult.rejected (some killSocketError), retries := [0],
              tags := [protocolVersion "POWR"] }
      ∧ timeoutConcluded "POWR" (argToString (Arg.num 1)) false
          = AttemptResult.retryWith
              ("Failed command to projector, failed to close socket, command: %1"
                ++ "POWR" ++ " " ++ argToString (Arg.num 1))) :=
  ⟨⟨by decide, rfl⟩,
    C1_close_failure envPowrOkCloseFail "POWR" (Arg.num 1) 0 none "%1POWR=OK\r"
      (by decide) rfl⟩

/-- C2: across any call the instrumented retry trace is consecutive from the
initial counter, every traced counter is at most `maxRetries = 5`, and at most
`maxRetries + 1` Attempts run; on the device that answers every POWR Attempt
with `"%1POWR=ERR2\r"` the call runs exactly the six Attempts `[0, 1, 2, 3, 4, 5]`
and rejects with the carried error of the sixth Attempt, which contains the raw
`ERR2` token. -/
theorem C2_retry_exhaustion :
    (∀ (env : Nat → AttemptEvent) (cmd argString : String) (query : Bool)
        (retry : Nat) (err : Option String),
      (sendCmdAux env cmd argString query (maxRetries + 1) retry err).retries
          = List.range' retry
              (sendCmdAux env cmd argString query (maxRetries + 1) retry err).retries.length
        ∧ (sendCmdAux env cmd argString query (maxRetries + 1) retry err).retries.all
            (fun r => decide (r ≤ maxRetries)) = true
        ∧ (sendCmdAux env cmd argString query (maxRetries + 1) retry err).retries.length
            ≤ maxRetries + 1)
    ∧ (sendCmd envPowrErr2 "POWR" (Arg.num 1) none none).retries = [0, 1, 2, 3, 4, 5]
    ∧ (sendCmd envPowrErr2 "POWR" (Arg.num 1) none none).result
        = CmdResult.rejected (some ("Projector returned error: " ++ "ERR2\r")) := by
  exact ⟨fun env cmd argString query retry err =>
    sendCmdAux_retries_spec env cmd argString query (maxRetries + 1) retry err,
    by decide, by decide⟩

/-- C3, counterexample: for the query response `"%1LAMP=1234 1\r"` the code
resolves `buf.slice(7).toString()`, which is `"1234 1\r"` with the CR terminator
still attached, not the claimed `"1234 1"`. -/
theorem C3_payload_counterexample :
    (sendCmd envLampQuery "LAMP" Arg.query none none).result
        = CmdResult.resolved (some "1234 1\r")
      ∧ ("1234 1\r" : String) ≠ "1234 1" := by
  decide

/-- C3 (amended): for a query whose response starts with the exact 7-byte head
`versionTag + cmd + "="`, the resolved payload is the entire tail after that
head, with the CR terminator retained (not stripped); in particular
`"%1LAMP=1234 1\r"` resolves to `"1234 1\r"`. -/
theorem C3_payload_keeps_terminator (cmd tail : String) (h : cmd.data.length = 4) :
    responseConcluded (protocolVersion cmd) cmd true
        (protocolVersion cmd ++ cmd ++ "=" ++ tail) true
      = AttemptResult.resolve (some tail)
    ∧ (sendCmd
          (fun _ => AttemptEvent.response (protocolVersion cmd ++ cmd ++ "=" ++ tail) true)
          cmd Arg.query none none).result
        = CmdResult.resolved (some tail) := by
  have hresp : responseConcluded (protocolVersion cmd) cmd true
      (protocolVersion cmd ++ cmd ++ "=" ++ tail) true
      = AttemptResult.resolve (some tail) := by
    have := responseConcluded_append cmd tail true h
    simpa using this
  refine ⟨hresp, ?_⟩
  have hnot : ¬ maxRetries < 0 := by omega
  have hout : attemptOutcome (protocolVersion cmd) cmd (argToString Arg.query)
      (isQuery Arg.query)
      ((fun _ : Nat =>
        AttemptEvent.response (protocolVersion cmd ++ cmd ++ "=" ++ tail) true) 0)
      = AttemptResult.resolve (some tail) := hresp
  rw [show sendCmd
        (fun _ => AttemptEvent.response (protocolVersion cmd ++ cmd ++ "=" ++ tail) true)
        cmd Arg.query none none
      = sendCmdAux
          (fun _ => AttemptEvent.response (protocolVersion cmd ++ cmd ++ "=" ++ tail) true)
          cmd (argToString Arg.query) (isQuery Arg.query) (maxRetries + 1) 0 none
      from rfl,
    sendCmdAux_resolve _ cmd _ _ maxRetries 0 none (some tail) hnot hout]

/-- C3, witness for the amended theorem at the LAMP example of the claim. -/
theorem C3_payload_witness :
    ("LAMP" : String).data.length = 4
    ∧ (responseConcluded (protocolVersion "LAMP") "LAMP" true
          (protocolVersion "LAMP" ++ "LAMP" ++ "=" ++ "1234 1\r") true
        = AttemptResult.resolve (some "1234 1\r")
      ∧ (sendCmd
            (fun _ => AttemptEvent.response
              (protocolVersion "LAMP" ++ "LAMP" ++ "=" ++ "1234 1\r") true)
            "LAMP" Arg.query none none).result
          = CmdResult.resolved (some "1234 1\r")) :=
  ⟨by decide, C3_payload_keeps_terminator "LAMP" "1234 1\r" (by decide)⟩

/-- C4: a set command whose response has the matched 7-byte head and a tail
starting with `"OK"` resolves to success after the single Attempt `[0]` with no
further Attempt; any other tail makes the Attempt retry carrying
`"Projector returned error: "` plus the raw tail text. -/
theorem C4_set_command (cmd rest tail : String) (n : Nat)
    (h : cmd.data.length = 4) (hrej : bufSlice tail 0 2 ≠ "OK") :
    sendCmd
        (fun _ => AttemptEvent.response
          (protocolVersion cmd ++ cmd ++ "=" ++ ("OK" ++ rest)) true)
        cmd (Arg.num n) none none
      = { result := CmdResult.resolved none, retries := [0],
          tags := [protocolVersion cmd] }
    ∧ responseConcluded (protocolVersion cmd) cmd false
        (protocolVersion cmd ++ cmd ++ "=" ++ tail) true
      = AttemptResult.retryWith ("Projector returned error: " ++ tail) := by
  refine ⟨?_, ?_⟩
  · have hok : bufSlice ("OK" ++ rest) 0 2 = "OK" :=
      bufSlice_zero_append "OK" rest 2 rfl
    have hresp : responseConcluded (protocolVersion cmd) cmd false
        (protocolVersion cmd ++ cmd ++ "=" ++ ("OK" ++ rest)) true
        = AttemptResult.resolve none := by
      have := responseConcluded_append cmd ("OK" ++ rest) false h
      simpa [hok] using this
    have hnot : ¬ maxRetries < 0 := by omega
    have hout : attemptOutcome (protocolVersion cmd) cmd (argToString (Arg.num n))
        (isQuery (Arg.num n))
        ((fun _ : Nat => AttemptEvent.response
          (protocolVersion cmd ++ cmd ++ "=" ++ ("OK" ++ rest)) true) 0)
        = AttemptResult.resolve none := hresp
    rw [show sendCmd
          (fun _ => AttemptEvent.response
            (protocolVersion cmd ++ cmd ++ "=" ++ ("OK" ++ rest)) true)
          cmd (Arg.num n) none none
        = sendCmdAux
            (fun _ => AttemptEvent.response
              (protocolVersion cmd ++ cmd ++ "=" ++ ("OK" ++ rest)) true)
            cmd (argToString (Arg.num n)) (isQuery (Arg.num n)) (maxRetries + 1) 0 none
        from rfl,
      sendCmdAux_resolve _ cmd _ _ maxRetries 0 none none hnot hout]
  · have := responseConcluded_append cmd tail false h
    simpa [hrej] using this

/-- C4, witness at the POWR example of the claim. -/
theorem C4_set_command_witness :
    (("POWR" : String).data.length = 4 ∧ bufSlice "ERR2\r" 0 2 ≠ "OK")
    ∧ (sendCmd
          (fun _ => AttemptEvent.response
            (protocolVersion "POWR" ++ "POWR" ++ "=" ++ ("OK" ++ "\r")) true)
          "POWR" (Arg.num 1) none none
        = { result := CmdResult.resolved none, retries := [0],
            tags := [protocolVersion "POWR"] }
      ∧ responseConcluded (protocolVersion "POWR") "POWR" false
          (protocolVersion "POWR" ++ "POWR" ++ "=" ++ "ERR2\r") true
        = AttemptResult.retryWith ("Projector returned error: " ++ "ERR2\r")) :=
  ⟨⟨by decide, by decide⟩, C4_set_command "POWR" "\r" "ERR2\r" 1 (by decide) (by decide)⟩

/-- C5: on an auth greeting consisting of the 9-byte marker, an 8-character seed
and the CR terminator, the Attempt writes exactly
`md5hex(seed + password) + versionTag + cmd + " " + arg + "\r"`, where the seed
passed to the hash is the text between the marker and the terminator. -/
theorem C5_auth_line (md5hex : String → String) (password cmd seed : String)
    (arg : Arg) (_hseed : seed.data.length = 8) :
    handleData md5hex password (protocolVersion cmd) cmd (argToString arg)
        ("PJLINK 1 " ++ (seed ++ "\r"))
      = DataAction.writeAuth (md5hex (seed ++ password) ++ protocolVersion cmd ++ cmd
          ++ " " ++ argToString arg ++ "\r") := by
  have h9 : bufSlice ("PJLINK 1 " ++ (seed ++ "\r")) 0 9 = "PJLINK 1 " :=
    bufSlice_zero_append "PJLINK 1 " (seed ++ "\r") 9 rfl
  have hseed9 : bufSliceDropLast ("PJLINK 1 " ++ (seed ++ "\r")) 9 = seed :=
    bufSliceDropLast_append "PJLINK 1 " seed 9 rfl
  simp [handleData, h9, hseed9]

/-- C5, witness at the greeting and credential of the claim, with the hash
instantiated to the identity so the digest is visible in the line. -/
theorem C5_auth_line_witness :
    ("12345678" : String).data.length = 8
    ∧ handleData (fun s => s) "panasonic" (protocolVersion "POWR") "POWR"
        (argToString Arg.query) ("PJLINK 1 " ++ ("12345678" ++ "\r"))
      = DataAction.writeAuth ((fun s : String => s) ("12345678" ++ "panasonic")
          ++ protocolVersion "POWR" ++ "POWR" ++ " " ++ argToString Arg.query ++ "\r") :=
  ⟨by decide, C5_auth_line (fun s => s) "panasonic" "POWR" "12345678" Arg.query (by decide)⟩

/-- C6: for an uppercase command token (the form every CommandSpec token takes),
the version tag is `"%2"` exactly when the token is in the fixed version-2 set
and `"%1"` otherwise, and the PROTOCOL_VERSION recorded by every Attempt of one
call is that same tag computed from `cmd` alone, never changing across retries. -/
theorem C6_version_tag (cmd : String) (hupper : toUpperCase cmd = cmd) :
    (protocolVersion cmd = "%2" ↔ cmd ∈ protocolVersion2Commands)
    ∧ (protocolVersion cmd ≠ "%2" → protocolVersion cmd = "%1")
    ∧ ∀ (env : Nat → AttemptEvent) (argString : String) (query : Bool)
        (fuel retry : Nat) (err : Option String), ∃ k,
        (sendCmdAux env cmd argString query fuel retry err).tags
          = List.replicate k (protocolVersion cmd) := by
  refine ⟨?_, ?_, fun env argString query fuel retry err =>
    sendCmdAux_tags_replicate env cmd argString query fuel retry err⟩
  · rw [show protocolVersion cmd
        = if protocolVersion2Commands.contains (toUpperCase cmd) then "%2" else "%1"
        from rfl, hupper]
    by_cases hc : protocolVersion2Commands.contains cmd = true
    · rw [if_pos hc]
      exact ⟨fun _ => (contains_mem _ _).mp hc, fun _ => rfl⟩
    · rw [if_neg hc]
      exact ⟨fun h12 => absurd h12 (by decide),
        fun hm => absurd ((contains_mem _ _).mpr hm) hc⟩
  · rw [show protocolVersion cmd
        = if protocolVersion2Commands.contains (toUpperCase cmd) then "%2" else "%1"
        from rfl]
    by_cases hc : protocolVersion2Commands.contains (toUpperCase cmd) = true
    · rw [if_pos hc]
      exact fun hne => absurd rfl hne
    · rw [if_neg hc]
      exact fun _ => rfl

/-- C6, witness at the version-2 token SVOL. -/
theorem C6_version_tag_witness :
    toUpperCase "SVOL" = "SVOL"
    ∧ ((protocolVersion "SVOL" = "%2" ↔ "SVOL" ∈ protocolVersion2Commands)
      ∧ (protocolVersion "SVOL" ≠ "%2" → protocolVersion "SVOL" = "%1")
      ∧ ∀ (env : Nat → AttemptEvent) (argString : String) (query : Bool)
          (fuel retry : Nat) (err : Option String), ∃ k,
          (sendCmdAux env "SVOL" argString query fuel retry err).tags
            = List.replicate k (protocolVersion "SVOL")) :=
  ⟨by decide, C6_version_tag "SVOL" (by decide)⟩

/-- C7: a socket `error` event only appends to the `console.error` log; in every
Attempt state it leaves the `ending` flag, the written lines and the pending
settlement untouched, so it neither resolves the logical command nor starts a
new Attempt — only a data chunk or the timer can settle the Attempt. -/
theorem C7_socket_error_inert (md5hex : String → String)
    (password PV cmd argString : String) (query : Bool)
    (st : AttemptState) (msg : String) :
    stepAttempt md5hex password PV cmd argString query st (SocketEvent.socketError msg)
        = { st with errorLog := st.errorLog ++ [msg] }
    ∧ (stepAttempt md5hex password PV cmd argString query st
        (SocketEvent.socketError msg)).resolution = st.resolution
    ∧ (stepAttempt md5hex password PV cmd argString query st
        (SocketEvent.socketError msg)).writes = st.writes
    ∧ (stepAttempt md5hex password PV cmd argString query st
        (SocketEvent.socketError msg)).ending = st.ending :=
  ⟨rfl, rfl, rfl, rfl⟩

/-- C8: version-2 membership is decided on the uppercased token, so a lowercase
spelling such as "svol" still selects the `"%2"` tag, while the request line
frames the token itself unchanged. -/
theorem C8_case_insensitive (md5hex : String → String)
    (password cmd argString : String)
    (h : toUpperCase cmd ∈ protocolVersion2Commands) :
    protocolVersion cmd = "%2"
    ∧ handleData md5hex password (protocolVersion cmd) cmd argString "PJLINK 0\r"
        = DataAction.writePlain ("%2" ++ cmd ++ " " ++ argString ++ "\r") := by
  have hc : protocolVersion2Commands.contains (toUpperCase cmd) = true :=
    (contains_mem _ _).mpr h
  have hpv : protocolVersion cmd = "%2" := by
    rw [show protocolVersion cmd
        = if protocolVersion2Commands.contains (toUpperCase cmd) then "%2" else "%1"
        from rfl, if_pos hc]
  refine ⟨hpv, ?_⟩
  unfold handleData
  rw [if_neg (by decide : ¬ bufSlice "PJLINK 0\r" 0 9 = "PJLINK 1 "),
    if_pos (by decide : bufSlice "PJLINK 0\r" 0 8 = "PJLINK 0"), hpv]

/-- C8, witness at the lowercase token "svol". -/
theorem C8_case_insensitive_witness :
    toUpperCase "svol" ∈ protocolVersion2Commands
    ∧ (protocolVersion "svol" = "%2"
      ∧ handleData (fun s => s) "pw" (protocolVersion "svol") "svol" "1" "PJLINK 0\r"
          = DataAction.writePlain ("%2" ++ "svol" ++ " " ++ "1" ++ "\r")) :=
  ⟨by decide, C8_case_insensitive (fun s => s) "pw" "svol" "1" (by decide)⟩

/-- C9: the carried error of a rejected set command is exactly
`"Projector returned error: "` followed by the full response tail, CR terminator
included; `setInputByDirectNumber` matches precisely that terminator-bearing
string (the variant without the CR is passed through unchanged). -/
theorem C9_rejection_exact (cmd tail : String)
    (h : cmd.data.length = 4) (hrej : bufSlice tail 0 2 ≠ "OK") :
    responseConcluded (protocolVersion cmd) cmd false
        (protocolVersion cmd ++ cmd ++ "=" ++ tail) true
      = AttemptResult.retryWith ("Projector returned error: " ++ tail)
    ∧ setInputByDirectNumber envInptErr2 7
        = CmdResult.rejected (some "Input \"7\" does not exist")
    ∧ inputRejectionMap 7 (some "Projector returned error: ERR2")
        = some "Projector returned error: ERR2" := by
  refine ⟨?_, by decide, by decide⟩
  have := responseConcluded_append cmd tail false h
  simpa [hrej] using this

/-- C9, witness at the INPT ERR2 example of the claim. -/
theorem C9_rejection_exact_witness :
    (("INPT" : String).data.length = 4 ∧ bufSlice "ERR2\r" 0 2 ≠ "OK")
    ∧ (responseConcluded (protocolVersion "INPT") "INPT" false
          (protocolVersion "INPT" ++ "INPT" ++ "=" ++ "ERR2\r") true
        = AttemptResult.retryWith ("Projector returned error: " ++ "ERR2\r")
      ∧ setInputByDirectNumber envInptErr2 7
          = CmdResult.rejected (some "Input \"7\" does not exist")
      ∧ inputRejectionMap 7 (some "Projector returned error: ERR2")
          = some "Projector returned error: ERR2") :=
  ⟨⟨by decide, by decide⟩, C9_rejection_exact "INPT" "ERR2\r" (by decide) (by decide)⟩

/-- C10: a `_sendCmd` invocation whose retry counter exceeds `maxRetries` rejects
at once with the carried error of the previous Attempt and has no effects: the
instrumentation records no socket creation, no connection, no write and no timer
(empty retry and tag traces). -/
theorem C10_terminal_rejection (env : Nat → AttemptEvent) (cmd : String) (arg : Arg)
    (retry : Nat) (err : Option String) (h : maxRetries < retry) :
    sendCmd env cmd arg (some retry) err
      = { result := CmdResult.rejected err, retries := [], tags := [] } :=
  sendCmdAux_terminal env cmd (argToString arg) (isQuery arg) (maxRetries + 1) retry err h

/-- C10, witness at retry 6 with the carried error of a sixth ERR2 Attempt. -/
theorem C10_terminal_rejection_witness :
    maxRetries < 6
    ∧ sendCmd envPowrErr2 "POWR" (Arg.num 1) (some 6)
        (some ("Projector returned error: " ++ "ERR2\r"))
      = { result := CmdResult.rejected (some ("Projector returned error: " ++ "ERR2\r")),
          retries := [], tags := [] } :=
  ⟨by decide, C10_terminal_rejection envPowrErr2 "POWR" (Arg.num 1) 6
    (some ("Projector returned error: " ++ "ERR2\r")) (by decide)⟩

end PJLink
